import Mathlib

/-!
Shallow embedding of the meeting-transcription AI engine
(src/backend/ai-engine): configuration schema, quality gate,
orchestrator error path, preprocessing cache, topic-detection cache,
model hot-swap, action-item validation and the text chunker, together
with theorems about the specified properties.

Python floats are modelled as rationals (the claims are purely
order-theoretic), Python dict fields that may be absent as Option,
Python strings as Lean String or List Char, and calls into external
libraries (torch, transformers, spaCy, re) as explicit function
parameters.  Fallible code returns Except PyExc.
-/

set_option maxRecDepth 4000

deriving instance DecidableEq for Except

namespace MeetingAI

/-- Python exception values relevant to the engine control flow.
httpException models fastapi.HTTPException (status code + detail),
valueError models ValueError. -/
inductive PyExc where
  | httpException (statusCode : Nat) (detail : String)
  | valueError (msg : String)
  deriving DecidableEq, Repr

/-- str(e) for the exceptions above; starlette renders an
HTTPException as "status: detail". -/
def strOfPyExc : PyExc → String
  | PyExc.httpException code detail => toString code ++ ": " ++ detail
  | PyExc.valueError msg => msg

/-- config.py: the topic_detection section of AI_ENGINE_CONFIG. -/
structure TopicConfig where
  model_name : String
  confidence_threshold : ℚ
  max_topics : Nat
  chunk_size : Nat
  device : String
  batch_size : Nat
  performance_target : ℚ
  deriving DecidableEq, Repr

/-- config.py: the action_item_recognition section. -/
structure ActionConfig where
  model_name : String
  confidence_threshold : ℚ
  max_items : Nat
  device : String
  batch_size : Nat
  performance_target : ℚ
  deriving DecidableEq, Repr

/-- config.py: the summary_generation section. -/
structure SummaryConfig where
  model_name : String
  max_length : Nat
  min_length : Nat
  device : String
  batch_size : Nat
  performance_target : ℚ
  num_beams : Nat
  deriving DecidableEq, Repr

/-- config.py: the full AI_ENGINE_CONFIG schema (preprocessing section
carries no field any claim touches beyond max_chunk_size). -/
structure EngineConfig where
  topic_detection : TopicConfig
  action_item_recognition : ActionConfig
  summary_generation : SummaryConfig
  deriving DecidableEq, Repr

/-- The default AI_ENGINE_CONFIG values from config.py (device fixed to
cpu; the cuda branch only changes the device string). -/
def AI_ENGINE_CONFIG : EngineConfig :=
  { topic_detection :=
      { model_name := "bert-base-uncased", confidence_threshold := 85/100,
        max_topics := 10, chunk_size := 512, device := "cpu",
        batch_size := 16, performance_target := 95/100 }
  , action_item_recognition :=
      { model_name := "roberta-base", confidence_threshold := 8/10,
        max_items := 20, device := "cpu", batch_size := 32,
        performance_target := 9/10 }
  , summary_generation :=
      { model_name := "facebook/bart-large-cnn", max_length := 1024,
        min_length := 256, device := "cpu", batch_size := 8,
        performance_target := 85/100, num_beams := 4 } }

/-- The metadata dict built by ActionItemRecognizer.extract_metadata,
restricted to the keys validate_action_item reads.  Absent keys are
none. -/
structure MetadataDict where
  assignee : Option String
  deadline : Option String
  priority : Option String
  status : Option String
  created_at : Option String
  deriving DecidableEq, Repr

/-- The empty dict that action_item.get("metadata") defaults to. -/
def emptyMetadata : MetadataDict :=
  { assignee := none, deadline := none, priority := none,
    status := none, created_at := none }

/-- An action-item dict as passed around main.py and
action_item_recognition.py; each key may be absent. -/
structure ActionItemDict where
  text : Option String
  confidence : Option ℚ
  metadata : Option MetadataDict
  deriving DecidableEq, Repr

/-- The topics dict consumed by the quality gate:
the chained gets of "metadata" then "performance_score" collapse to
one optional field read with default 0. -/
structure TopicsOutput where
  performance_score : Option ℚ
  deriving DecidableEq, Repr

/-- The summary dict consumed by the quality gate:
the chained gets of "metadata" then "quality_score". -/
structure SummaryOutput where
  quality_score : Option ℚ
  deriving DecidableEq, Repr

/-- main.py AIEngine._validate_output_quality: the Quality Gate. -/
def AIEngine.validate_output_quality (config : EngineConfig)
    (topics : TopicsOutput) (action_items : List ActionItemDict)
    (summary : SummaryOutput) : Bool :=
  if topics.performance_score.getD 0 <
      config.topic_detection.performance_target then
    false
  else if (action_items.all fun item =>
      decide (config.action_item_recognition.confidence_threshold ≤
        item.confidence.getD 0)) = false then
    false
  else if summary.quality_score.getD 0 <
      config.summary_generation.performance_target then
    false
  else
    true

/-- The dict assembled and returned by process_transcription on
success (metadata block omitted: it carries no quality content). -/
structure PipelineResult where
  meeting_id : String
  topics : TopicsOutput
  action_items : List ActionItemDict
  summary : SummaryOutput
  deriving DecidableEq, Repr

/-- The try-block of AIEngine.process_transcription: the three stage
calls (given here as already-computed Except values, since inference is
external), then the quality gate, which raises HTTPException(422) on
failure. -/
def AIEngine.process_transcription_body (config : EngineConfig)
    (meeting_id : String) (topics : Except PyExc TopicsOutput)
    (action_items : Except PyExc (List ActionItemDict))
    (summary : Except PyExc SummaryOutput) :
    Except PyExc PipelineResult :=
  match topics with
  | Except.error e => Except.error e
  | Except.ok t =>
    match action_items with
    | Except.error e => Except.error e
    | Except.ok a =>
      match summary with
      | Except.error e => Except.error e
      | Except.ok s =>
        if AIEngine.validate_output_quality config t a s = false then
          Except.error (PyExc.httpException 422
            "Generated content below quality threshold")
        else
          Except.ok { meeting_id := meeting_id, topics := t,
                      action_items := a, summary := s }

/-- main.py AIEngine.process_transcription: the try-block wrapped by
the catch-all handler, which turns ANY exception e from the body,
including the HTTPException(422) raised by the quality gate, into
HTTPException(500, str(e)). -/
def AIEngine.process_transcription (config : EngineConfig)
    (meeting_id : String) (topics : Except PyExc TopicsOutput)
    (action_items : Except PyExc (List ActionItemDict))
    (summary : Except PyExc SummaryOutput) :
    Except PyExc PipelineResult :=
  match AIEngine.process_transcription_body config meeting_id topics
      action_items summary with
  | Except.ok r => Except.ok r
  | Except.error e =>
      Except.error (PyExc.httpException 500 (strOfPyExc e))

/-- The disjunction of the three sub-threshold conditions the Quality
Gate tests. -/
def gateFailureCondition (config : EngineConfig) (topics : TopicsOutput)
    (action_items : List ActionItemDict) (summary : SummaryOutput) :
    Prop :=
  topics.performance_score.getD 0 <
      config.topic_detection.performance_target ∨
    (∃ item ∈ action_items, item.confidence.getD 0 <
      config.action_item_recognition.confidence_threshold) ∨
    summary.quality_score.getD 0 <
      config.summary_generation.performance_target

lemma validateQuality_eq_false_iff (config : EngineConfig)
    (topics : TopicsOutput) (action_items : List ActionItemDict)
    (summary : SummaryOutput) :
    AIEngine.validate_output_quality config topics action_items summary
        = false ↔
      gateFailureCondition config topics action_items summary := by
  unfold AIEngine.validate_output_quality gateFailureCondition
  split_ifs with h1 h2 h3
  · exact iff_of_true rfl (Or.inl h1)
  · refine iff_of_true rfl (Or.inr (Or.inl ?_))
    rcases List.all_eq_false.mp h2 with ⟨item, hmem, hp⟩
    exact ⟨item, hmem, by simpa using hp⟩
  · exact iff_of_true rfl (Or.inr (Or.inr h3))
  · refine iff_of_false (by simp) ?_
    have h2' : action_items.all (fun item =>
        decide (config.action_item_recognition.confidence_threshold ≤
          item.confidence.getD 0)) = true := by
      revert h2
      cases action_items.all (fun item =>
        decide (config.action_item_recognition.confidence_threshold ≤
          item.confidence.getD 0)) <;> simp
    rintro (h | ⟨item, hmem, hlt⟩ | h)
    · exact h1 h
    · have hle := of_decide_eq_true (List.all_eq_true.mp h2' item hmem)
      exact absurd hlt (not_lt.mpr hle)
    · exact h3 h

lemma validateQuality_eq_true_iff (config : EngineConfig)
    (topics : TopicsOutput) (action_items : List ActionItemDict)
    (summary : SummaryOutput) :
    AIEngine.validate_output_quality config topics action_items summary
        = true ↔
      ¬ gateFailureCondition config topics action_items summary := by
  rw [← validateQuality_eq_false_iff]
  cases AIEngine.validate_output_quality config topics action_items
      summary <;> simp

/-- C1: the Quality Gate returns false iff the topic stage mean
relevance is below the topic performance target, or some action item
confidence is below the action-item confidence threshold, or the
summary quality score is below the summary performance target; it
returns true when none of these holds. -/
theorem validate_output_quality_false_iff (config : EngineConfig)
    (topics : TopicsOutput) (action_items : List ActionItemDict)
    (summary : SummaryOutput) :
    (AIEngine.validate_output_quality config topics action_items summary
        = false ↔
      (topics.performance_score.getD 0 <
          config.topic_detection.performance_target ∨
        (∃ item ∈ action_items, item.confidence.getD 0 <
          config.action_item_recognition.confidence_threshold) ∨
        summary.quality_score.getD 0 <
          config.summary_generation.performance_target)) ∧
    (AIEngine.validate_output_quality config topics action_items summary
        = true ↔
      ¬ (topics.performance_score.getD 0 <
          config.topic_detection.performance_target ∨
        (∃ item ∈ action_items, item.confidence.getD 0 <
          config.action_item_recognition.confidence_threshold) ∨
        summary.quality_score.getD 0 <
          config.summary_generation.performance_target)) :=
  ⟨validateQuality_eq_false_iff config topics action_items summary,
   validateQuality_eq_true_iff config topics action_items summary⟩

/-- C9: the Quality Gate verdict is antitone in the performance
targets: holding the stage results and every other threshold fixed, a
request that still passes after raising the topic (respectively the
summary) performance target also passes at the original lower target,
so raising a target can only turn pass into fail, never fail into
pass. -/
theorem validate_output_quality_antitone (config : EngineConfig)
    (topics : TopicsOutput) (action_items : List ActionItemDict)
    (summary : SummaryOutput) (raisedTopic raisedSummary : ℚ)
    (htopic : config.topic_detection.performance_target ≤ raisedTopic)
    (hsummary : config.summary_generation.performance_target ≤
      raisedSummary) :
    (AIEngine.validate_output_quality
        { config with topic_detection :=
            { config.topic_detection with
                performance_target := raisedTopic } }
        topics action_items summary = true →
      AIEngine.validate_output_quality config topics action_items
        summary = true) ∧
    (AIEngine.validate_output_quality
        { config with summary_generation :=
            { config.summary_generation with
                performance_target := raisedSummary } }
        topics action_items summary = true →
      AIEngine.validate_output_quality config topics action_items
        summary = true) := by
  constructor
  · intro hpass
    rw [validateQuality_eq_true_iff] at hpass ⊢
    intro hfail
    apply hpass
    rcases hfail with h | h | h
    · exact Or.inl (lt_of_lt_of_le h htopic)
    · exact Or.inr (Or.inl h)
    · exact Or.inr (Or.inr h)
  · intro hpass
    rw [validateQuality_eq_true_iff] at hpass ⊢
    intro hfail
    apply hpass
    rcases hfail with h | h | h
    · exact Or.inl h
    · exact Or.inr (Or.inl h)
    · exact Or.inr (Or.inr (lt_of_lt_of_le h hsummary))

/-- Witness for C9 at the default configuration: raising the topic
target from 0.95 to 0.96 and the summary target from 0.85 to 0.9, with
stage results of full quality. -/
theorem validate_output_quality_antitone_witness :
    (AI_ENGINE_CONFIG.topic_detection.performance_target ≤ 96/100 ∧
      AI_ENGINE_CONFIG.summary_generation.performance_target ≤ 9/10) ∧
    ((AIEngine.validate_output_quality
        { AI_ENGINE_CONFIG with topic_detection :=
            { AI_ENGINE_CONFIG.topic_detection with
                performance_target := 96/100 } }
        { performance_score := some 1 } [] { quality_score := some 1 }
          = true →
      AIEngine.validate_output_quality AI_ENGINE_CONFIG
        { performance_score := some 1 } [] { quality_score := some 1 }
          = true) ∧
    (AIEngine.validate_output_quality
        { AI_ENGINE_CONFIG with summary_generation :=
            { AI_ENGINE_CONFIG.summary_generation with
                performance_target := 9/10 } }
        { performance_score := some 1 } [] { quality_score := some 1 }
          = true →
      AIEngine.validate_output_quality AI_ENGINE_CONFIG
        { performance_score := some 1 } [] { quality_score := some 1 }
          = true)) :=
  ⟨⟨by norm_num [AI_ENGINE_CONFIG], by norm_num [AI_ENGINE_CONFIG]⟩,
   validate_output_quality_antitone AI_ENGINE_CONFIG
     { performance_score := some 1 } [] { quality_score := some 1 }
     (96/100) (9/10) (by norm_num [AI_ENGINE_CONFIG])
     (by norm_num [AI_ENGINE_CONFIG])⟩

/-- C2 (code bug): when the Quality Gate rejects the stage outputs,
process_transcription raises HTTPException(422), but its own blanket
except-clause catches that exception and re-raises it as
HTTPException(500, str(e)): the quality-gate rejection surfaces to the
client as a generic 500 server fault, not as the distinguishable 422
outcome.  Evaluated here at a topic result of mean relevance 0.8
against the default topic performance target 0.95. -/
theorem quality_gate_rejection_surfaces_as_500 :
    AIEngine.process_transcription AI_ENGINE_CONFIG "meeting-1"
      (Except.ok { performance_score := some (8/10) })
      (Except.ok [])
      (Except.ok { quality_score := some (9/10) }) =
    Except.error (PyExc.httpException 500
      "422: Generated content below quality threshold") := by
  have hgate : AIEngine.validate_output_quality AI_ENGINE_CONFIG
      { performance_score := some (8/10) } []
      { quality_score := some (9/10) } = false := by
    unfold AIEngine.validate_output_quality
    norm_num [AI_ENGINE_CONFIG]
  unfold AIEngine.process_transcription
    AIEngine.process_transcription_body
  have hstr : strOfPyExc (PyExc.httpException 422
      "Generated content below quality threshold") =
      "422: Generated content below quality threshold" := rfl
  simp [hgate, hstr]

/-! ## The chunker (summary_generation.chunk_text) -/

/-- The sentence-terminal characters tested by
the membership test of text[end_idx] in ".!?". -/
def isSentenceTerminal (c : Char) : Bool :=
  c == '.' || c == '!' || c == '?'

/-- Steps taken by the inner while-loop of chunk_text before it sees a
sentence-terminal character or falls off the end of the text. -/
def distToTerminal : List Char → Nat
  | [] => 0
  | c :: cs => if isSentenceTerminal c then 0 else distToTerminal cs + 1

/-- The inner while-loop of chunk_text:
while end_idx < len(text) and text[end_idx] not in ".!?": end_idx += 1. -/
def findSentenceEnd (text : List Char) (e : Nat) : Nat :=
  e + distToTerminal (text.drop e)

/-- The end_idx computed for one chunk starting at start: candidate
start + chunk_size, extended to past the next sentence terminal and
clamped to the text length when overlap preservation is on and the
candidate falls inside the text. -/
def chunkEnd (text : List Char) (chunk_size : Nat)
    (preserve_overlap : Bool) (start : Nat) : Nat :=
  let e := start + chunk_size
  if preserve_overlap ∧ e < text.length then
    min (findSentenceEnd text e + 1) text.length
  else e

/-- A chunk dict as built by chunk_text. -/
structure TextChunk where
  text : List Char
  start_idx : Nat
  end_idx : Nat
  speakers : List (String × String)
  overlap_next : Bool
  deriving DecidableEq, Repr

/-- The speaker-context dict restricted to speakers whose label occurs
as a substring of the chunk text (Python `speaker in chunk_text`). -/
def chunkSpeakers (speaker_context : List (String × String))
    (ctext : List Char) : List (String × String) :=
  speaker_context.filter fun sc =>
    decide (List.IsInfix sc.fst.toList ctext)

/-- The main while-loop of chunk_text, run with an explicit fuel
bound: none means the fuel was exhausted before start_idx reached the
end of the text, so a Python-level infinite loop yields none at every
fuel.  Indices are naturals; in every execution trace the theorems
below reason about, end_idx stays at or above the overlap width, so
the truncated subtraction agrees with Python. -/
def chunkFrom (fuel : Nat) (text : List Char) (chunk_size : Nat)
    (speaker_context : List (String × String))
    (preserve_overlap : Bool) (start : Nat) :
    Option (List TextChunk) :=
  match fuel with
  | 0 => none
  | fuel + 1 =>
    if start < text.length then
      let e := chunkEnd text chunk_size preserve_overlap start
      let ctext := (text.drop start).take (e - start)
      let chunk : TextChunk :=
        { text := ctext, start_idx := start, end_idx := e,
          speakers := chunkSpeakers speaker_context ctext,
          overlap_next := preserve_overlap && decide (e < text.length) }
      match chunkFrom fuel text chunk_size speaker_context
          preserve_overlap (e - (if preserve_overlap then 100 else 0)) with
      | some rest => some (chunk :: rest)
      | none => none
    else
      some []

/-- summary_generation.chunk_text: the loop started at offset 0 (the
CUDA dynamic-sizing branch only shrinks chunk_size on GPU hosts and is
identity on the CPU path modelled here). -/
def chunk_text (fuel : Nat) (text : List Char) (chunk_size : Nat)
    (speaker_context : List (String × String))
    (preserve_overlap : Bool) : Option (List TextChunk) :=
  chunkFrom fuel text chunk_size speaker_context preserve_overlap 0

/-- chunk_text terminates on an input when some fuel completes it. -/
def chunkTextTerminates (text : List Char) (chunk_size : Nat)
    (speaker_context : List (String × String))
    (preserve_overlap : Bool) : Prop :=
  ∃ fuel,
    (chunk_text fuel text chunk_size speaker_context
      preserve_overlap).isSome = true

/-- 200 characters with no sentence terminal: the C3 failing input. -/
def nonTermText : List Char := List.replicate 200 'a'

lemma nonTermText_length : nonTermText.length = 200 := by decide

lemma chunkEnd_nonTermText_100 : chunkEnd nonTermText 50 true 100 = 200 := by
  decide

lemma chunkFrom_nonTermText_loop (fuel : Nat) :
    chunkFrom fuel nonTermText 50 [] true 100 = none := by
  induction fuel with
  | zero => rfl
  | succ n ih =>
      simp only [chunkFrom, chunkEnd_nonTermText_100, nonTermText_length]
      norm_num [ih]

lemma chunk_text_nonTermText_none (fuel : Nat) :
    chunk_text fuel nonTermText 50 [] true = none := by
  cases fuel with
  | zero => rfl
  | succ n =>
      have h0 : chunkEnd nonTermText 50 true 0 = 200 := by decide
      simp only [chunk_text, chunkFrom, h0, nonTermText_length]
      norm_num [chunkFrom_nonTermText_loop n]

/-- C3 (code bug): chunk_text does not terminate for every chunk size
S ≥ 1.  With overlap enabled, start_idx advances to end_idx - 100, and
on a 200-character terminal-free text with chunk_size 50 the loop
reaches start_idx = 100, recomputes end_idx = 200, and resets
start_idx to 100 forever: no fuel completes the loop, refuting the
claimed ceil(len/max(1, S - 100)) bound and the claimed strict advance
of the start index. -/
theorem chunk_text_nontermination :
    chunkTextTerminates nonTermText 50 [] true = False := by
  apply eq_false
  rintro ⟨fuel, hfuel⟩
  rw [chunk_text_nonTermText_none fuel] at hfuel
  simp at hfuel

/-- Offset-order concatenation of the chunk texts. -/
def concatChunkTexts (cs : List TextChunk) : List Char :=
  (cs.map TextChunk.text).flatten

/-- The chunk texts concatenated in offset order with the declared
100-character overlap window removed from the front of every chunk
after the first. -/
def overlapReassembly (cs : List TextChunk) : List Char :=
  match cs with
  | [] => []
  | c :: rest => c.text ++ (rest.map fun c => c.text.drop 100).flatten

/-- 150 terminal-free characters: the C4 counterexample input. -/
def overlapLoopText : List Char := List.replicate 150 'b'

lemma overlapLoopText_length : overlapLoopText.length = 150 := by decide

lemma chunkEnd_overlapLoopText_50 :
    chunkEnd overlapLoopText 40 true 50 = 150 := by decide

lemma chunkFrom_overlapLoopText_loop (fuel : Nat) :
    chunkFrom fuel overlapLoopText 40 [] true 50 = none := by
  induction fuel with
  | zero => rfl
  | succ n ih =>
      simp only [chunkFrom, chunkEnd_overlapLoopText_50,
        overlapLoopText_length]
      norm_num [ih]

lemma chunk_text_overlapLoopText_none (fuel : Nat) :
    chunk_text fuel overlapLoopText 40 [] true = none := by
  cases fuel with
  | zero => rfl
  | succ n =>
      have h0 : chunkEnd overlapLoopText 40 true 0 = 150 := by decide
      simp only [chunk_text, chunkFrom, h0, overlapLoopText_length]
      norm_num [chunkFrom_overlapLoopText_loop n]

/-- C4 counterexample: with overlap enabled and chunk_size 40 on a
150-character terminal-free text, the loop cycles at start_idx = 50
and chunk_text never produces a chunk list at any fuel, so no
concatenation of its chunks reproduces the text: the claim fails for
this text and chunk size. -/
theorem chunk_text_coverage_counterexample :
    chunkTextTerminates overlapLoopText 40 [] true = False := by
  apply eq_false
  rintro ⟨fuel, hfuel⟩
  rw [chunk_text_overlapLoopText_none fuel] at hfuel
  simp at hfuel

lemma chunkEnd_noOverlap (text : List Char) (S start : Nat) :
    chunkEnd text S false start = start + S := by
  simp [chunkEnd]

lemma findSentenceEnd_ge (text : List Char) (e : Nat) :
    e ≤ findSentenceEnd text e :=
  Nat.le_add_right _ _

lemma chunkEnd_ge (text : List Char) (S : Nat) (po : Bool) (start : Nat) :
    start + S ≤ chunkEnd text S po start := by
  simp only [chunkEnd]
  split_ifs with h
  · rcases h with ⟨hpo, hlt⟩
    refine le_min ?_ (by omega)
    have := findSentenceEnd_ge text (start + S)
    omega
  · exact le_refl _

lemma chunkFrom_succ_some (fuel : Nat) (text : List Char) (S : Nat)
    (ctx : List (String × String)) (po : Bool) (start : Nat)
    (rest : List TextChunk) (hs : start < text.length)
    (hrest : chunkFrom fuel text S ctx po
      (chunkEnd text S po start - (if po then 100 else 0)) = some rest) :
    chunkFrom (fuel + 1) text S ctx po start =
      some ({ text := (text.drop start).take
                (chunkEnd text S po start - start),
              start_idx := start,
              end_idx := chunkEnd text S po start,
              speakers := chunkSpeakers ctx ((text.drop start).take
                (chunkEnd text S po start - start)),
              overlap_next := po && decide
                (chunkEnd text S po start < text.length) } :: rest) := by
  simp only [chunkFrom, if_pos hs, hrest]

lemma chunkFrom_succ_of_ge (fuel : Nat) (text : List Char) (S : Nat)
    (ctx : List (String × String)) (po : Bool) (start : Nat)
    (hs : ¬ start < text.length) :
    chunkFrom (fuel + 1) text S ctx po start = some [] := by
  simp only [chunkFrom, if_neg hs]

lemma chunkFrom_noOverlap_cover (text : List Char) (S : Nat)
    (ctx : List (String × String)) (hS : 1 ≤ S) :
    ∀ fuel start, text.length - start < fuel →
      ∃ cs, chunkFrom fuel text S ctx false start = some cs ∧
        (cs.map TextChunk.text).flatten = text.drop start := by
  intro fuel
  induction fuel with
  | zero => intro start h; omega
  | succ n ih =>
      intro start h
      by_cases hs : start < text.length
      · rcases ih (start + S) (by omega) with ⟨cs, hcs, hjoin⟩
        have hrest : chunkFrom n text S ctx false
            (chunkEnd text S false start - (if false then 100 else 0)) =
            some cs := by
          rw [chunkEnd_noOverlap]
          simpa using hcs
        have hstep := chunkFrom_succ_some n text S ctx false start cs hs
          hrest
        refine ⟨_, hstep, ?_⟩
        simp only [List.map_cons, List.flatten_cons, hjoin,
          chunkEnd_noOverlap, Nat.add_sub_cancel_left]
        exact List.drop_take_append_drop text start S
      · refine ⟨[], chunkFrom_succ_of_ge n text S ctx false start hs, ?_⟩
        have hnil : text.drop start = [] :=
          List.drop_eq_nil_iff.mpr (by omega)
        simp [hnil]

lemma chunkFrom_overlap_cover (text : List Char) (S : Nat)
    (ctx : List (String × String)) (hS : 101 ≤ S) :
    ∀ fuel start, text.length - start < fuel →
      ∃ cs, chunkFrom fuel text S ctx true start = some cs ∧
        (cs.map fun c => c.text.drop 100).flatten =
          text.drop (start + 100) := by
  intro fuel
  induction fuel with
  | zero => intro start h; omega
  | succ n ih =>
      intro start h
      by_cases hs : start < text.length
      · have hge : start + S ≤ chunkEnd text S true start :=
          chunkEnd_ge text S true start
        rcases ih (chunkEnd text S true start - 100) (by omega) with
          ⟨cs, hcs, hjoin⟩
        have hrest : chunkFrom n text S ctx true
            (chunkEnd text S true start - (if true then 100 else 0)) =
            some cs := by
          simpa using hcs
        have hstep := chunkFrom_succ_some n text S ctx true start cs hs
          hrest
        refine ⟨_, hstep, ?_⟩
        have he100 : chunkEnd text S true start - 100 + 100 =
            chunkEnd text S true start := by omega
        rw [he100] at hjoin
        simp only [List.map_cons, List.flatten_cons, hjoin]
        rw [List.drop_take, List.drop_drop]
        have hfin := List.drop_take_append_drop text (start + 100)
          (chunkEnd text S true start - start - 100)
        have hidx : start + 100 +
            (chunkEnd text S true start - start - 100) =
            chunkEnd text S true start := by omega
        rw [hidx] at hfin
        exact hfin
      · refine ⟨[], chunkFrom_succ_of_ge n text S ctx true start hs, ?_⟩
        have hnil : text.drop (start + 100) = [] :=
          List.drop_eq_nil_iff.mpr (by omega)
        simp [hnil]

/-- C4 (amended): when overlap preservation is disabled,
concatenating the chunk texts in offset order reproduces the input
exactly, for every chunk size S ≥ 1; when overlap preservation is
enabled and S ≥ 101 (so that the start index advances and the loop
terminates), the concatenation reproduces the input with exactly the
declared 100-character overlap window duplicated at the front of every
chunk after the first: removing those windows and concatenating yields
the input. -/
theorem chunk_text_coverage (text : List Char) (S : Nat)
    (ctx : List (String × String)) :
    (1 ≤ S →
      ∃ cs, chunk_text (text.length + 1) text S ctx false = some cs ∧
        concatChunkTexts cs = text) ∧
    (101 ≤ S →
      ∃ cs, chunk_text (text.length + 1) text S ctx true = some cs ∧
        overlapReassembly cs = text) := by
  constructor
  · intro hS
    simp only [chunk_text]
    rcases chunkFrom_noOverlap_cover text S ctx hS (text.length + 1) 0
      (by omega) with ⟨cs, hcs, hjoin⟩
    exact ⟨cs, hcs, by simpa [concatChunkTexts] using hjoin⟩
  · intro hS
    simp only [chunk_text]
    by_cases hlen : 0 < text.length
    · have hge : 0 + S ≤ chunkEnd text S true 0 :=
        chunkEnd_ge text S true 0
      rcases chunkFrom_overlap_cover text S ctx hS text.length
        (chunkEnd text S true 0 - 100) (by omega) with ⟨cs, hcs, hjoin⟩
      have hrest : chunkFrom text.length text S ctx true
          (chunkEnd text S true 0 - (if true then 100 else 0)) =
          some cs := by
        simpa using hcs
      have hstep := chunkFrom_succ_some text.length text S ctx true 0 cs
        hlen hrest
      refine ⟨_, hstep, ?_⟩
      have he100 : chunkEnd text S true 0 - 100 + 100 =
          chunkEnd text S true 0 := by omega
      rw [he100] at hjoin
      simp only [overlapReassembly, hjoin, List.drop_zero, Nat.sub_zero]
      exact List.take_append_drop _ text
    · have htext : text = [] := by
        cases text
        · rfl
        · simp at hlen
      subst htext
      exact ⟨[], rfl, rfl⟩

/-! ## Topic detection (topic_detection.TopicDetector) -/

/-- A detected topic as shaped by nlp_utils.extract_topics; subtopics
recurse with the same shape. -/
inductive Topic where
  | mk (topic : String) (relevance : ℚ) (keywords : List String)
      (subtopics : List Topic)

/-- The relevance field of a topic. -/
def Topic.relevance : Topic → ℚ
  | Topic.mk _ r _ _ => r

/-- np.mean over rationals (the empty-list NaN corner of numpy is not
modelled; no claim touches it). -/
def npMean (l : List ℚ) : ℚ := l.sum / l.length

/-- Python `x or default` on an optional float: None and 0.0 are falsy
and select the default. -/
def orFalsy (v : Option ℚ) (dflt : ℚ) : ℚ :=
  match v with
  | none => dflt
  | some x => if x = 0 then dflt else x

/-- nlp_utils.extract_topics: input validation, then the transformer
embedding + hierarchical clustering (an external backend, here the
clustered parameter) filtered by the minimum relevance score. -/
def extract_topics (clustered : List Topic) (text : List Char)
    (min_relevance_score : ℚ) : Except PyExc (List Topic) :=
  if text = [] ∨ min_relevance_score < 0 ∨ 1 < min_relevance_score then
    Except.error (PyExc.valueError "Invalid input parameters")
  else
    Except.ok (clustered.filter fun t =>
      decide (min_relevance_score ≤ t.relevance))

/-- The result dict built by TopicDetector.detect_topics. -/
structure TopicResult where
  topics : List Topic
  confidence_threshold : ℚ
  model_name : String
  performance_score : ℚ

/-- topic_detection.TopicDetector.detect_topics.  External effects are
parameters: pyHash is Python hash(), preprocessed is the output of
TranscriptionPreprocessor.process on this text (its regex content is
not consulted by any claim), clustered feeds extract_topics.  The
mutable self._cache is threaded explicitly: the call returns the
result together with the cache as left after the call. -/
def TopicDetector.detect_topics (config : TopicConfig)
    (pyHash : List Char → Int) (preprocessed : List Char)
    (clustered : List Topic) (cache : List (Int × TopicResult))
    (text : List Char) (confidence_threshold : Option ℚ) :
    Except PyExc (TopicResult × List (Int × TopicResult)) :=
  if text = [] then
    Except.error (PyExc.valueError "Empty text provided")
  else
    let threshold :=
      orFalsy confidence_threshold config.confidence_threshold
    let cache_key := pyHash text
    match List.lookup cache_key cache with
    | some cached => Except.ok (cached, cache)
    | none =>
      match extract_topics clustered preprocessed threshold with
      | Except.error e => Except.error e
      | Except.ok topics =>
        let result : TopicResult :=
          { topics := topics, confidence_threshold := threshold,
            model_name := config.model_name,
            performance_score := npMean (topics.map Topic.relevance) }
        let cache' :=
          if config.performance_target ≤ result.performance_score then
            (cache_key, result) :: cache
          else cache
        Except.ok (result, cache')

/-- C5: on a cache miss with nonempty text, a topic result whose mean
relevance is below the stage performance target leaves the pattern
cache exactly as it was (it is never inserted), and that same result
fails the Quality Gate whenever the gate uses the stage target,
whatever the other two stage outputs are. -/
theorem subthreshold_result_not_cached (config : TopicConfig)
    (pyHash : List Char → Int) (preprocessed : List Char)
    (clustered : List Topic) (cache : List (Int × TopicResult))
    (text : List Char) (ct : Option ℚ) (engine : EngineConfig)
    (htext : text ≠ [])
    (hmiss : List.lookup (pyHash text) cache = none)
    (hok : ∃ topics, extract_topics clustered preprocessed
        (orFalsy ct config.confidence_threshold) = Except.ok topics ∧
      npMean (topics.map Topic.relevance) < config.performance_target)
    (htarget : engine.topic_detection.performance_target =
      config.performance_target) :
    ∃ r, TopicDetector.detect_topics config pyHash preprocessed
        clustered cache text ct = Except.ok (r, cache) ∧
      ∀ items summary, AIEngine.validate_output_quality engine
        { performance_score := some r.performance_score } items summary
          = false := by
  rcases hok with ⟨topics, hex, hlow⟩
  refine ⟨{ topics := topics,
            confidence_threshold :=
              orFalsy ct config.confidence_threshold,
            model_name := config.model_name,
            performance_score := npMean (topics.map Topic.relevance) },
          ?_, ?_⟩
  · simp only [TopicDetector.detect_topics, if_neg htext, hmiss, hex]
    rw [if_neg (not_le.mpr hlow)]
  · intro items summary
    rw [validateQuality_eq_false_iff]
    refine Or.inl ?_
    simpa [htarget] using hlow

/-- Witness for C5: a single topic of relevance 0.8 against the
default topic performance target 0.95. -/
theorem subthreshold_result_not_cached_witness :
    ((['a'] : List Char) ≠ [] ∧
      List.lookup ((fun _ => (0 : Int)) ['a'])
        ([] : List (Int × TopicResult)) = none ∧
      (∃ topics, extract_topics [Topic.mk "budget" (8/10) [] []] ['a']
          (orFalsy (some (1/2))
            AI_ENGINE_CONFIG.topic_detection.confidence_threshold) =
          Except.ok topics ∧
        npMean (topics.map Topic.relevance) <
          AI_ENGINE_CONFIG.topic_detection.performance_target) ∧
      AI_ENGINE_CONFIG.topic_detection.performance_target =
        AI_ENGINE_CONFIG.topic_detection.performance_target) ∧
    (∃ r, TopicDetector.detect_topics AI_ENGINE_CONFIG.topic_detection
        (fun _ => (0 : Int)) ['a'] [Topic.mk "budget" (8/10) [] []] []
        ['a'] (some (1/2)) = Except.ok (r, []) ∧
      ∀ items summary, AIEngine.validate_output_quality AI_ENGINE_CONFIG
        { performance_score := some r.performance_score } items summary
          = false) := by
  have hex : extract_topics [Topic.mk "budget" (8/10) [] []] ['a']
      (orFalsy (some (1/2))
        AI_ENGINE_CONFIG.topic_detection.confidence_threshold) =
      Except.ok [Topic.mk "budget" (8/10) [] []] := by
    norm_num [extract_topics, orFalsy, AI_ENGINE_CONFIG, Topic.relevance]
  have hlow : npMean (([Topic.mk "budget" (8/10) [] []]).map
      Topic.relevance) <
      AI_ENGINE_CONFIG.topic_detection.performance_target := by
    norm_num [npMean, Topic.relevance, AI_ENGINE_CONFIG]
  exact ⟨⟨by simp, rfl, ⟨_, hex, hlow⟩, rfl⟩,
    subthreshold_result_not_cached AI_ENGINE_CONFIG.topic_detection
      (fun _ => (0 : Int)) ['a'] [Topic.mk "budget" (8/10) [] []] []
      ['a'] (some (1/2)) AI_ENGINE_CONFIG (by simp) rfl
      ⟨_, hex, hlow⟩ rfl⟩

/-- Witness for C4 at the 13-character text "Hello. World." with chunk
size 101, in both overlap modes. -/
theorem chunk_text_coverage_witness :
    (1 ≤ 101 ∧ 101 ≤ 101) ∧
    ((∃ cs, chunk_text ("Hello. World.".toList.length + 1)
        "Hello. World.".toList 101 [] false = some cs ∧
        concatChunkTexts cs = "Hello. World.".toList) ∧
     (∃ cs, chunk_text ("Hello. World.".toList.length + 1)
        "Hello. World.".toList 101 [] true = some cs ∧
        overlapReassembly cs = "Hello. World.".toList)) :=
  ⟨⟨by norm_num, by norm_num⟩,
   (chunk_text_coverage "Hello. World.".toList 101 []).1 (by norm_num),
   (chunk_text_coverage "Hello. World.".toList 101 []).2 (by norm_num)⟩

/-! ## Action-item recognition (action_item_recognition.py) -/

/-- Python truthiness of an optional string: None and the empty string
are falsy (metadata.get(f) feeding `not`). -/
def truthyStr : Option String → Bool
  | none => false
  | some s => decide (s ≠ "")

/-- Count of maximal non-whitespace runs, walking the characters with
a flag for being inside a word. -/
def wordsAux : List Char → Bool → Nat
  | [], _ => 0
  | c :: cs, inWord =>
    if c.isWhitespace then wordsAux cs false
    else (if inWord then 0 else 1) + wordsAux cs true

/-- len(text.split()): Python split() discards empty pieces, so this
is the number of maximal whitespace-separated words. -/
def pyWordCount (s : String) : Nat :=
  wordsAux s.toList false

/-- The validation_results dict of validate_action_item. -/
structure ValidationResults where
  is_valid : Bool
  confidence_check : Bool
  metadata_check : Bool
  format_check : Bool
  feedback : List String
  deriving DecidableEq, Repr

/-- The comprehension over the required fields assignee, deadline and
priority keeping those for which metadata.get(f) is falsy. -/
def missingFields (md : MetadataDict) : List String :=
  (if truthyStr md.assignee then [] else ["assignee"]) ++
  (if truthyStr md.deadline then [] else ["deadline"]) ++
  (if truthyStr md.priority then [] else ["priority"])

/-- action_item_recognition.ActionItemRecognizer.validate_action_item.
The instance threshold config value, datetime.fromisoformat (none when
it raises ValueError) and datetime.now() are explicit parameters; the
`threshold or config[...]` fallback treats None and 0.0 as falsy. -/
def ActionItemRecognizer.validate_action_item (config_threshold : ℚ)
    (parseIso : String → Option Int) (now : Int)
    (action_item : ActionItemDict) (threshold : Option ℚ) :
    Bool × ValidationResults :=
  let conf_threshold := orFalsy threshold config_threshold
  let confFails := decide (action_item.confidence.getD 0 < conf_threshold)
  let fb1 := if confFails then ["Confidence score below threshold"] else []
  let metadata := action_item.metadata.getD emptyMetadata
  let missing := missingFields metadata
  let metaMissing := decide (missing ≠ [])
  let fb2 := if metaMissing then
      ["Missing required metadata: " ++ String.intercalate ", " missing]
    else []
  let deadlineIssue : Bool × List String :=
    if truthyStr metadata.deadline then
      match parseIso (metadata.deadline.getD "") with
      | some d =>
          if d < now then (true, ["Invalid deadline: Date is in the past"])
          else (false, [])
      | none => (true, ["Invalid deadline format"])
    else (false, [])
  let formatFails := decide (pyWordCount (action_item.text.getD "") < 3)
  let fb4 := if formatFails then ["Action item text too short"] else []
  let confidence_check := !confFails
  let metadata_check := !(metaMissing || deadlineIssue.fst)
  let format_check := !formatFails
  let is_valid := confidence_check && metadata_check && format_check
  (is_valid,
   { is_valid := is_valid, confidence_check := confidence_check,
     metadata_check := metadata_check, format_check := format_check,
     feedback := fb1 ++ fb2 ++ deadlineIssue.snd ++ fb4 })

/-- A fixed ISO parser for the counterexample below: it recognizes one
timestamp string and maps it to its epoch second. -/
def demoParseIso : String → Option Int := fun s =>
  if s = "2020-01-01T00:00:00" then some 1577836800 else none

/-- A complete action item carrying a 2020 deadline. -/
def demoDeadlineItem : ActionItemDict :=
  { text := some "Prepare the project report",
    confidence := some (9/10),
    metadata := some
      { assignee := some "Alice",
        deadline := some "2020-01-01T00:00:00",
        priority := some "high",
        status := some "pending",
        created_at := some "2019-12-31T00:00:00" } }

/-- C8 counterexample: validate_action_item reads datetime.now(), so
two calls with identical item and threshold can disagree: before the
deadline of the item the verdict is valid, after it the deadline check
fails.  The function is therefore not a pure function of item and
threshold alone. -/
theorem validate_action_item_time_dependent :
    (ActionItemRecognizer.validate_action_item (8/10) demoParseIso 0
      demoDeadlineItem (some (1/2))).fst = true ∧
    (ActionItemRecognizer.validate_action_item (8/10) demoParseIso
      1600000000 demoDeadlineItem (some (1/2))).fst = false := by
  have hwc : pyWordCount "Prepare the project report" = 4 := by decide
  constructor <;>
    norm_num [ActionItemRecognizer.validate_action_item,
      demoDeadlineItem, demoParseIso, orFalsy, missingFields,
      truthyStr, emptyMetadata, hwc] <;>
    decide

/-- C8 (amended): validate_action_item is a deterministic function of
its item, its threshold, the configured threshold and the current
clock; in particular, for any item whose metadata carries no truthy
deadline the result is independent of the clock and of the ISO parser
altogether, so identical inputs yield identical (is_valid, feedback)
whenever the deadline field is absent or the calls share one instant. -/
theorem validate_action_item_deterministic (config_threshold : ℚ)
    (p1 p2 : String → Option Int) (n1 n2 : Int)
    (item : ActionItemDict) (threshold : Option ℚ)
    (h : truthyStr (item.metadata.getD emptyMetadata).deadline = false) :
    ActionItemRecognizer.validate_action_item config_threshold p1 n1
      item threshold =
    ActionItemRecognizer.validate_action_item config_threshold p2 n2
      item threshold := by
  simp only [ActionItemRecognizer.validate_action_item, h]
  simp

/-- A complete action item with no deadline. -/
def demoNoDeadlineItem : ActionItemDict :=
  { text := some "Send the meeting notes",
    confidence := some (9/10),
    metadata := some
      { assignee := some "Bob",
        deadline := none,
        priority := some "low",
        status := some "pending",
        created_at := some "2026-01-01T00:00:00" } }

/-- Witness for the amended C8: a deadline-free item evaluated under
two different parsers and clocks. -/
theorem validate_action_item_deterministic_witness :
    truthyStr (demoNoDeadlineItem.metadata.getD emptyMetadata).deadline
      = false ∧
    ActionItemRecognizer.validate_action_item (8/10) demoParseIso 0
      demoNoDeadlineItem (some (1/2)) =
    ActionItemRecognizer.validate_action_item (8/10) (fun _ => none)
      999 demoNoDeadlineItem (some (1/2)) :=
  ⟨by decide,
   validate_action_item_deterministic (8/10) demoParseIso
     (fun _ => none) 0 999 demoNoDeadlineItem (some (1/2)) (by decide)⟩

/-- C10: an action-item dict lacking the confidence key is treated as
confidence 0 by the get with default 0: for every positive
effective threshold the confidence check fails, the verdict is invalid
and the feedback contains "Confidence score below threshold"; no error
is raised for the missing field. -/
theorem validate_action_item_missing_confidence (config_threshold : ℚ)
    (parseIso : String → Option Int) (now : Int)
    (item : ActionItemDict) (threshold : Option ℚ)
    (hconf : item.confidence = none)
    (hpos : 0 < orFalsy threshold config_threshold) :
    (ActionItemRecognizer.validate_action_item config_threshold
      parseIso now item threshold).fst = false ∧
    (ActionItemRecognizer.validate_action_item config_threshold
      parseIso now item threshold).snd.confidence_check = false ∧
    "Confidence score below threshold" ∈
      (ActionItemRecognizer.validate_action_item config_threshold
        parseIso now item threshold).snd.feedback := by
  simp only [ActionItemRecognizer.validate_action_item, hconf,
    Option.getD_none]
  rw [decide_eq_true hpos]
  simp

/-- A metadata-complete action item carrying no confidence key. -/
def demoMissingConfItem : ActionItemDict :=
  { text := some "Send the meeting notes", confidence := none,
    metadata := demoNoDeadlineItem.metadata }

/-- Witness for C10: a metadata-complete item with no confidence key
against threshold 0.8. -/
theorem validate_action_item_missing_confidence_witness :
    demoMissingConfItem.confidence = none ∧
    (0 : ℚ) < orFalsy (some (8/10)) (8/10) ∧
    ((ActionItemRecognizer.validate_action_item (8/10) demoParseIso 0
      demoMissingConfItem (some (8/10))).fst = false ∧
    (ActionItemRecognizer.validate_action_item (8/10) demoParseIso 0
      demoMissingConfItem (some (8/10))).snd.confidence_check = false ∧
    "Confidence score below threshold" ∈
      (ActionItemRecognizer.validate_action_item (8/10) demoParseIso 0
        demoMissingConfItem (some (8/10))).snd.feedback) :=
  ⟨rfl, by norm_num [orFalsy],
   validate_action_item_missing_confidence (8/10) demoParseIso 0
     demoMissingConfItem (some (8/10)) rfl (by norm_num [orFalsy])⟩

/-! ## Preprocessing pipeline and stage entry points -/

/-- A speaker segment dict as produced by
text_preprocessing.segment_speakers. -/
structure SpeakerSegment where
  speaker : String
  text : String
  confidence : ℚ
  start_index : Nat
  end_index : Nat

/-- The dict returned by TranscriptionPreprocessor.process (the
processing_time metadata entry is timing-only and not modelled). -/
structure ProcessedDoc where
  processed_text : List Char
  speaker_segments : List SpeakerSegment
  original_length : Nat
  processed_length : Nat

/-- text_preprocessing.TranscriptionPreprocessor.process.  The
regex/NLP collaborators are parameters: segments stands for
segment_speakers on the cleaned text and processChunk for the
filler-removal plus normalization pipeline (sequential and parallel
branches concatenate the same per-chunk map in offset order).  The
mutable TTL pattern cache is threaded explicitly; note the write is
unconditional whenever use_cache is set. -/
def TranscriptionPreprocessor.process (pyHash : List Char → Int)
    (segments : List SpeakerSegment)
    (processChunk : List Char → List Char)
    (cache : List (Int × ProcessedDoc)) (text : List Char)
    (use_cache : Bool) :
    Except PyExc (ProcessedDoc × List (Int × ProcessedDoc)) :=
  if text = [] then
    Except.error (PyExc.valueError "Empty text provided")
  else
    let cache_key := pyHash text
    match (if use_cache then List.lookup cache_key cache else none) with
    | some cached => Except.ok (cached, cache)
    | none =>
      let processed_text := processChunk text
      let result : ProcessedDoc :=
        { processed_text := processed_text,
          speaker_segments := segments,
          original_length := text.length,
          processed_length := processed_text.length }
      let cache' :=
        if use_cache then (cache_key, result) :: cache else cache
      Except.ok (result, cache')

/-- summary_generation.SummaryGenerator.generate_summary, to the depth
any claim consumes: the preprocessor runs first (so its ValueError on
empty input propagates through the re-raising except handler), and the
chunking, BART batch generation, merging and post-processing that
follow depend on the transformer backend and appear as a continuation
parameter applied to the processed document. -/
def SummaryGenerator.generate_summary (pyHash : List Char → Int)
    (segments : List SpeakerSegment)
    (processChunk : List Char → List Char)
    (afterPreprocessing : ProcessedDoc → Except PyExc SummaryOutput)
    (ppCache : List (Int × ProcessedDoc)) (text : List Char) :
    Except PyExc SummaryOutput :=
  match TranscriptionPreprocessor.process pyHash segments processChunk
      ppCache text true with
  | Except.error e => Except.error e
  | Except.ok (pd, _) => afterPreprocessing pd

/-- An action item dict as built by detect_action_items. -/
structure DetectedActionItem where
  text : String
  confidence : ℚ
  metadata : MetadataDict
  validation : Bool × ValidationResults

/-- action_item_recognition.ActionItemRecognizer.detect_action_items
on the single-string input path.  The preprocessor composition, the
classifier class-1 sigmoid score and the spaCy metadata extraction are
parameters; processing_config models the optional
confidence_threshold override of the merged per-request config.  Note
the first line: `if not text: return []`. -/
def ActionItemRecognizer.detect_action_items
    (preprocess : List Char → List Char) (score : List Char → ℚ)
    (extractMeta : List Char → MetadataDict)
    (parseIso : String → Option Int) (now : Int)
    (config : ActionConfig) (processing_config : Option ℚ)
    (text : List Char) : Except PyExc (List DetectedActionItem) :=
  if text = [] then
    Except.ok []
  else
    let threshold :=
      match processing_config with
      | some t => t
      | none => config.confidence_threshold
    let processed := preprocess text
    let s := score processed
    if threshold ≤ s then
      let metadata := extractMeta processed
      let validation := ActionItemRecognizer.validate_action_item
        config.confidence_threshold parseIso now
        { text := some (String.mk processed), confidence := none,
          metadata := some metadata } (some threshold)
      if validation.fst then
        Except.ok [{ text := String.mk processed, confidence := s,
                     metadata := metadata, validation := validation }]
      else
        Except.ok []
    else
      Except.ok []

/-- C7 counterexample: action-item recognition returns the ordinary
empty list for the empty string instead of raising an
InvalidInput-class error (its own edge-case test accepts exactly this
behavior), so not every stage raises on empty input. -/
theorem detect_action_items_empty_returns_list :
    ActionItemRecognizer.detect_action_items id (fun _ => 0)
      (fun _ => emptyMetadata) (fun _ => none) 0
      AI_ENGINE_CONFIG.action_item_recognition none [] =
    Except.ok [] := rfl

/-- C7 (amended): on empty input, topic detection raises
ValueError("Empty text provided") before any inference, and summary
generation propagates the same ValueError from its preprocessor before
any chunking or generation; action-item recognition instead returns
the empty list as a normal result without running inference. -/
theorem empty_input_behavior (tconfig : TopicConfig)
    (pyHash : List Char → Int) (preprocessed : List Char)
    (clustered : List Topic) (tcache : List (Int × TopicResult))
    (ct : Option ℚ) (segments : List SpeakerSegment)
    (processChunk : List Char → List Char)
    (afterPreprocessing : ProcessedDoc → Except PyExc SummaryOutput)
    (ppCache : List (Int × ProcessedDoc))
    (preprocess : List Char → List Char) (score : List Char → ℚ)
    (extractMeta : List Char → MetadataDict)
    (parseIso : String → Option Int) (now : Int)
    (aconfig : ActionConfig) (pc : Option ℚ) :
    TopicDetector.detect_topics tconfig pyHash preprocessed clustered
      tcache [] ct =
      Except.error (PyExc.valueError "Empty text provided") ∧
    SummaryGenerator.generate_summary pyHash segments processChunk
      afterPreprocessing ppCache [] =
      Except.error (PyExc.valueError "Empty text provided") ∧
    ActionItemRecognizer.detect_action_items preprocess score
      extractMeta parseIso now aconfig pc [] = Except.ok [] :=
  ⟨rfl, rfl, rfl⟩

/-! ## Model hot-swap (update_model of both stages) -/

/-- A new-config dict handed to TopicDetector.update_model; every key
may be absent. -/
structure TDConfigUpdate where
  model_name : Option String
  confidence_threshold : Option ℚ
  performance_target : Option ℚ
  deriving DecidableEq, Repr

/-- Python dict.update of the stage config with the new keys. -/
def TopicConfig.updateWith (c : TopicConfig) (u : TDConfigUpdate) :
    TopicConfig :=
  { c with
    model_name := u.model_name.getD c.model_name,
    confidence_threshold :=
      u.confidence_threshold.getD c.confidence_threshold,
    performance_target :=
      u.performance_target.getD c.performance_target }

/-- The mutable state of a TopicDetector: the config dict, the loaded
model and tokenizer (named by the id they were loaded from) and the
pattern cache. -/
structure TopicDetectorState where
  config : TopicConfig
  model : String
  tokenizer : String
  cache : List (Int × TopicResult)

/-- topic_detection.TopicDetector.update_model.  The from_pretrained
backend is the load parameter (none when loading the model, the
tokenizer, or the device move raises); the inner except restores the
saved config, model and tokenizer and returns False, the outer except
turns the key-validation ValueError into False with nothing mutated. -/
def TopicDetector.update_model
    (load : String → Option (String × String))
    (st : TopicDetectorState) (new_config : TDConfigUpdate)
    (force_update : Bool) : Bool × TopicDetectorState :=
  if ¬ (new_config.model_name.isSome ∧
      new_config.confidence_threshold.isSome) then
    (false, st)
  else if ¬ force_update ∧
      new_config.model_name = some st.config.model_name then
    (true, st)
  else
    match load (new_config.model_name.getD "") with
    | some (m, tok) =>
        (true, { config := st.config.updateWith new_config, model := m,
                 tokenizer := tok, cache := [] })
    | none => (false, st)

/-- A new-config dict handed to SummaryGenerator.update_model; the
model_params payload is opaque, only its presence matters. -/
structure SGConfigUpdate where
  model_params : Option String
  performance_target : Option ℚ
  deriving DecidableEq, Repr

/-- SummaryGenerator._config is the whole engine config dict, and
dict.update(new_config) grafts the two new top-level keys onto it. -/
structure SGConfig where
  base : EngineConfig
  model_params : Option String
  performance_target : Option ℚ
  deriving DecidableEq, Repr

/-- Python dict.update of the generator config with the new keys. -/
def SGConfig.updateWith (c : SGConfig) (u : SGConfigUpdate) : SGConfig :=
  { base := c.base,
    model_params :=
      match u.model_params with
      | some v => some v
      | none => c.model_params,
    performance_target :=
      match u.performance_target with
      | some v => some v
      | none => c.performance_target }

/-- The mutable state of a SummaryGenerator relevant to update_model. -/
structure SummaryGeneratorState where
  config : SGConfig
  cache : List (Int × SummaryOutput)
  deriving DecidableEq, Repr

/-- The status strings returned by SummaryGenerator.update_model. -/
inductive SGUpdateStatus where
  | updated
  | reverted
  deriving DecidableEq, Repr

/-- summary_generation.SummaryGenerator.update_model.  The
_validate_performance metrics are the degradation parameter.  The
missing-key ValueError is re-raised by the except handler before any
mutation; a degradation above 10% restores the saved config and
reports reverted; otherwise the merged config is kept and the cache
cleared.  The state after the call is always returned alongside. -/
def SummaryGenerator.update_model (degradation : ℚ)
    (st : SummaryGeneratorState) (new_config : SGConfigUpdate)
    (validate_performance : Bool) :
    Except PyExc SGUpdateStatus × SummaryGeneratorState :=
  if ¬ (new_config.model_params.isSome ∧
      new_config.performance_target.isSome) then
    (Except.error (PyExc.valueError "Invalid configuration format"), st)
  else
    let old_config := st.config
    let updated := st.config.updateWith new_config
    if validate_performance ∧ 1/10 < degradation then
      (Except.ok SGUpdateStatus.reverted, { st with config := old_config })
    else
      (Except.ok SGUpdateStatus.updated, { config := updated, cache := [] })

/-- C6: a failed or rolled-back update_model leaves the stage in its
prior serving state.  A TopicDetector.update_model call that returns
False leaves the whole detector state (active model, tokenizer,
configuration and cache) exactly as before the call; a
SummaryGenerator.update_model call that does not report a successful
update (it raised or reverted) leaves the configuration as before; and
a new config missing the performance_target key always makes the
summary stage raise the ValueError model-update failure with its state
untouched. -/
theorem update_model_rollback_safe
    (load : String → Option (String × String))
    (st : TopicDetectorState) (nc : TDConfigUpdate) (force : Bool)
    (deg : ℚ) (sst : SummaryGeneratorState) (snc : SGConfigUpdate)
    (vp : Bool)
    (hfail : (TopicDetector.update_model load st nc force).fst = false)
    (hnotup : (SummaryGenerator.update_model deg sst snc vp).fst ≠
      Except.ok SGUpdateStatus.updated) :
    (TopicDetector.update_model load st nc force).snd = st ∧
    (SummaryGenerator.update_model deg sst snc vp).snd.config =
      sst.config ∧
    (snc.performance_target = none →
      SummaryGenerator.update_model deg sst snc vp =
        (Except.error (PyExc.valueError "Invalid configuration format"),
         sst)) := by
  refine ⟨?_, ?_, ?_⟩
  · simp only [TopicDetector.update_model] at hfail ⊢
    by_cases h1 : ¬ (nc.model_name.isSome = true ∧
        nc.confidence_threshold.isSome = true)
    · rw [if_pos h1]
    · rw [if_neg h1] at hfail ⊢
      by_cases h2 : ¬ force = true ∧
          nc.model_name = some st.config.model_name
      · rw [if_pos h2] at hfail
        exact absurd hfail (by simp)
      · rw [if_neg h2] at hfail ⊢
        cases hload : load (nc.model_name.getD "") with
        | none => rfl
        | some p =>
            rw [hload] at hfail
            obtain ⟨m, tok⟩ := p
            exact absurd hfail (by simp)
  · simp only [SummaryGenerator.update_model] at hnotup ⊢
    by_cases h1 : ¬ (snc.model_params.isSome = true ∧
        snc.performance_target.isSome = true)
    · rw [if_pos h1]
    · rw [if_neg h1] at hnotup ⊢
      by_cases h2 : vp = true ∧ 1/10 < deg
      · rw [if_pos h2]
      · rw [if_neg h2] at hnotup
        exact absurd rfl hnotup
  · intro hpt
    have hcond : ¬ (snc.model_params.isSome = true ∧
        snc.performance_target.isSome = true) := by
      simp [hpt]
    simp only [SummaryGenerator.update_model]
    rw [if_pos hcond]

/-- Demo values for the C6 witness: a detector whose model load fails
and a generator update missing performance_target. -/
def demoTDState : TopicDetectorState :=
  { config := AI_ENGINE_CONFIG.topic_detection,
    model := "bert-base-uncased", tokenizer := "bert-base-uncased",
    cache := [] }

/-- The new config offered to the detector in the C6 witness. -/
def demoTDUpdate : TDConfigUpdate :=
  { model_name := some "bert-large-uncased",
    confidence_threshold := some (9/10), performance_target := none }

/-- The generator state used in the C6 witness. -/
def demoSGState : SummaryGeneratorState :=
  { config := { base := AI_ENGINE_CONFIG, model_params := none,
                performance_target := none },
    cache := [] }

/-- The generator new config (missing performance_target) in the C6
witness. -/
def demoSGUpdate : SGConfigUpdate :=
  { model_params := some "fp16", performance_target := none }

/-- Witness for C6: the detector load fails and returns False with its
state intact; the generator update, missing performance_target, raises
with its config intact. -/
theorem update_model_rollback_safe_witness :
    ((TopicDetector.update_model (fun _ => none) demoTDState
        demoTDUpdate true).fst = false ∧
      (SummaryGenerator.update_model (2/10) demoSGState demoSGUpdate
        true).fst ≠ Except.ok SGUpdateStatus.updated) ∧
    ((TopicDetector.update_model (fun _ => none) demoTDState
        demoTDUpdate true).snd = demoTDState ∧
      (SummaryGenerator.update_model (2/10) demoSGState demoSGUpdate
        true).snd.config = demoSGState.config ∧
      (demoSGUpdate.performance_target = none →
        SummaryGenerator.update_model (2/10) demoSGState demoSGUpdate
          true =
          (Except.error
            (PyExc.valueError "Invalid configuration format"),
           demoSGState))) := by
  have hfail : (TopicDetector.update_model (fun _ => none) demoTDState
      demoTDUpdate true).fst = false := by
    simp [TopicDetector.update_model, demoTDUpdate, demoTDState]
  have hnotup : (SummaryGenerator.update_model (2/10) demoSGState
      demoSGUpdate true).fst ≠ Except.ok SGUpdateStatus.updated := by
    simp [SummaryGenerator.update_model, demoSGUpdate, demoSGState]
  exact ⟨⟨hfail, hnotup⟩,
    update_model_rollback_safe (fun _ => none) demoTDState demoTDUpdate
      true (2/10) demoSGState demoSGUpdate true hfail hnotup⟩

end MeetingAI
